import Mathlib

/-!
Verification development for the "Video Object Identifier with Gemini" app.

The development shallowly embeds the three core pieces of the program:

* the detection client `identifyObjectsInVideo` (src/services/geminiService.ts),
  modelled as a pure retry loop over a stream of attempt outcomes;
* the frame extractor `extractFrameFromVideo` (App source), modelled by its
  timestamp clamping and success/failure behaviour;
* the annotator `drawBoundingBoxOnImage` (App source), modelled over exact
  rationals extended with a NaN element mirroring JS number semantics for
  `*`, `Math.max`, `Math.min`, `-` and `>`;
* the per-object frame-job state updates of `handleIdentifyClick` (App source),
  modelled as an event-step function on the displayed object list.
-/

/-- JS numbers as used by the annotator: exact rationals plus NaN.
Rounding of IEEE doubles is not modelled; the sign and comparison facts the
program relies on are exact. -/
inductive JsNum
  | num : ℚ → JsNum
  | nan : JsNum
deriving DecidableEq

/-- JS `a * b`: NaN propagates. -/
def jsMul : JsNum → JsNum → JsNum
  | JsNum.num a, JsNum.num b => JsNum.num (a * b)
  | _, _ => JsNum.nan

/-- JS `Math.max(a, b)`: returns NaN if either argument is NaN. -/
def jsMax : JsNum → JsNum → JsNum
  | JsNum.num a, JsNum.num b => JsNum.num (max a b)
  | _, _ => JsNum.nan

/-- JS `Math.min(a, b)`: returns NaN if either argument is NaN. -/
def jsMin : JsNum → JsNum → JsNum
  | JsNum.num a, JsNum.num b => JsNum.num (min a b)
  | _, _ => JsNum.nan

/-- JS `a - b`: NaN propagates. -/
def jsSub : JsNum → JsNum → JsNum
  | JsNum.num a, JsNum.num b => JsNum.num (a - b)
  | _, _ => JsNum.nan

/-- JS `a > b`: any comparison with NaN is false. -/
def jsGt : JsNum → JsNum → Bool
  | JsNum.num a, JsNum.num b => decide (b < a)
  | _, _ => false

@[simp] theorem jsMul_num (a b : ℚ) : jsMul (JsNum.num a) (JsNum.num b) = JsNum.num (a * b) := rfl
@[simp] theorem jsMax_num (a b : ℚ) : jsMax (JsNum.num a) (JsNum.num b) = JsNum.num (max a b) := rfl
@[simp] theorem jsMin_num (a b : ℚ) : jsMin (JsNum.num a) (JsNum.num b) = JsNum.num (min a b) := rfl
@[simp] theorem jsSub_num (a b : ℚ) : jsSub (JsNum.num a) (JsNum.num b) = JsNum.num (a - b) := rfl
@[simp] theorem jsGt_num (a b : ℚ) : jsGt (JsNum.num a) (JsNum.num b) = decide (b < a) := rfl

/-- Character-level test used to model JS `String.prototype.includes`:
`pat` is an initial segment of the second list. -/
def prefOf : List Char → List Char → Bool
  | [], _ => true
  | _ :: _, [] => false
  | a :: as, b :: bs => a == b && prefOf as bs

/-- `pat` occurs contiguously somewhere in the list. -/
def occursIn (pat : List Char) : List Char → Bool
  | [] => prefOf pat []
  | c :: rest => prefOf pat (c :: rest) || occursIn pat rest

/-- JS `s.includes(pat)`. -/
def strIncludes (s pat : String) : Bool :=
  occursIn pat.data s.data

/-- Drops leading whitespace characters from a character list. -/
def dropLeadingWs : List Char → List Char
  | [] => []
  | c :: cs => if c.isWhitespace then dropLeadingWs cs else c :: cs

/-- JS `s.trim()`: drop leading and trailing whitespace. -/
def jsTrim (s : String) : String :=
  String.mk (dropLeadingWs (dropLeadingWs s.data.reverse).reverse)

/-- A bounding box as produced by the model: four normalized coordinates
(geminiService.ts, interface BoundingBox). -/
structure BoundingBox where
  x_min : JsNum
  y_min : JsNum
  x_max : JsNum
  y_max : JsNum
deriving DecidableEq

/-- A detected object record (geminiService.ts, interface VideoObject). -/
structure VideoObject where
  name : String
  description : String
  timestamp : ℚ
  boundingBox : BoundingBox
  price : String
deriving DecidableEq

/-- Outcome of one `ai.models.generateContent` call, as observed by the retry
loop of `identifyObjectsInVideo`: either a response carrying its text, or a
thrown error carrying its message. -/
inductive AttemptOutcome
  | response (text : String)
  | throwErr (msg : String)

/-- Final outcome of `identifyObjectsInVideo`: a resolved `IdentifyResult`
(`objects` and `rawJson`), or a thrown error message. -/
inductive IdentifyOutcome
  | ok (objects : List VideoObject) (rawJson : String)
  | err (msg : String)
deriving DecidableEq

/-- A whole run of `identifyObjectsInVideo`: how many `generateContent` calls
were made, the `setTimeout` delays slept between attempts (in milliseconds,
in order), and the final outcome. -/
structure IdentifyRun where
  calls : ℕ
  waits : List ℕ
  result : IdentifyOutcome
deriving DecidableEq

/-- geminiService.ts line 112: `const maxRetries = 3`. -/
def maxRetries : ℕ := 3

/-- geminiService.ts line 181: the transient-failure classification
`error.message?.includes('503') || error.message?.includes('UNAVAILABLE') ||
error.message?.includes('overloaded')`. -/
def isServiceUnavailable (msg : String) : Bool :=
  strIncludes msg "503" || strIncludes msg "UNAVAILABLE" || strIncludes msg "overloaded"

/-- geminiService.ts line 191: the message thrown on a terminal failure. -/
def failedMsg : String :=
  "Failed to identify objects in the video. The model may have returned an error or invalid data after multiple retries."

/-- geminiService.ts line 196: the message thrown if the loop were exited. -/
def exhaustedMsg : String :=
  "Exhausted all retries to the Gemini API."

/-- geminiService.ts lines 171-178: handling of a successful response.
`parse` abstracts the external `JSON.parse`; a parse failure is a thrown
error caught by the surrounding catch block. -/
def handleResponseText (parse : String → Except String (List VideoObject))
    (text : String) : Except String IdentifyOutcome :=
  let t := jsTrim text
  if t = "" then Except.ok (IdentifyOutcome.ok [] "[]")
  else
    match parse t with
    | Except.ok objs => Except.ok (IdentifyOutcome.ok objs t)
    | Except.error m => Except.error m

/-- The body of one `try` block: a response is processed by
`handleResponseText`; a throw from `generateContent` is the caught error. -/
def attemptResult (parse : String → Except String (List VideoObject)) :
    AttemptOutcome → Except String IdentifyOutcome
  | AttemptOutcome.response text => handleResponseText parse text
  | AttemptOutcome.throwErr msg => Except.error msg

@[simp] theorem attemptResult_response (parse : String → Except String (List VideoObject))
    (text : String) :
    attemptResult parse (AttemptOutcome.response text) = handleResponseText parse text := rfl

@[simp] theorem attemptResult_throwErr (parse : String → Except String (List VideoObject))
    (msg : String) :
    attemptResult parse (AttemptOutcome.throwErr msg) = Except.error msg := rfl

/-- geminiService.ts lines 115-193: the retry loop `for (let i = 0; i < maxRetries; i++)`.
`fuel` is the number of loop iterations left (`maxRetries - i`), `i` the loop
index, `delay` the current backoff delay, `calls` and `waits` the accumulated
call count and sleeps. `outcomes i` is what the `i`-th `generateContent` call
does. -/
def identifyLoop (parse : String → Except String (List VideoObject))
    (outcomes : ℕ → AttemptOutcome) :
    ℕ → ℕ → ℕ → ℕ → List ℕ → IdentifyRun
  | 0, _, _, calls, waits => ⟨calls, waits.reverse, IdentifyOutcome.err exhaustedMsg⟩
  | fuel + 1, i, delay, calls, waits =>
    match attemptResult parse (outcomes i) with
    | Except.ok r => ⟨calls + 1, waits.reverse, r⟩
    | Except.error msg =>
      if isServiceUnavailable msg && decide (i < maxRetries - 1) then
        identifyLoop parse outcomes fuel (i + 1) (delay * 2) (calls + 1) (delay :: waits)
      else
        ⟨calls + 1, waits.reverse, IdentifyOutcome.err failedMsg⟩

/-- geminiService.ts lines 112-196: `identifyObjectsInVideo` from the first
`generateContent` call on (key check and video encoding precede the loop and
are not box/response dependent). Initial delay 1000 ms. -/
def identifyObjectsInVideo (parse : String → Except String (List VideoObject))
    (outcomes : ℕ → AttemptOutcome) : IdentifyRun :=
  identifyLoop parse outcomes maxRetries 0 1000 0 []

theorem identifyLoop_succ (parse : String → Except String (List VideoObject))
    (outcomes : ℕ → AttemptOutcome) (fuel i delay calls : ℕ) (waits : List ℕ) :
    identifyLoop parse outcomes (fuel + 1) i delay calls waits =
      match attemptResult parse (outcomes i) with
      | Except.ok r => ⟨calls + 1, waits.reverse, r⟩
      | Except.error msg =>
        if isServiceUnavailable msg && decide (i < maxRetries - 1) then
          identifyLoop parse outcomes fuel (i + 1) (delay * 2) (calls + 1) (delay :: waits)
        else
          ⟨calls + 1, waits.reverse, IdentifyOutcome.err failedMsg⟩ := rfl

theorem identifyLoop_transient_step (parse : String → Except String (List VideoObject))
    (outcomes : ℕ → AttemptOutcome) (fuel i delay calls : ℕ) (waits : List ℕ) (msg : String)
    (ho : outcomes i = AttemptOutcome.throwErr msg)
    (ht : isServiceUnavailable msg = true) (hi : i < maxRetries - 1) :
    identifyLoop parse outcomes (fuel + 1) i delay calls waits
      = identifyLoop parse outcomes fuel (i + 1) (delay * 2) (calls + 1) (delay :: waits) := by
  have hd : decide (i < maxRetries - 1) = true := decide_eq_true hi
  simp only [identifyLoop_succ, ho, attemptResult_throwErr, ht, hd, Bool.true_and, if_true]

theorem identifyLoop_terminal_step (parse : String → Except String (List VideoObject))
    (outcomes : ℕ → AttemptOutcome) (fuel i delay calls : ℕ) (waits : List ℕ) (msg : String)
    (ho : outcomes i = AttemptOutcome.throwErr msg)
    (hcond : (isServiceUnavailable msg && decide (i < maxRetries - 1)) = false) :
    identifyLoop parse outcomes (fuel + 1) i delay calls waits
      = ⟨calls + 1, waits.reverse, IdentifyOutcome.err failedMsg⟩ := by
  simp only [identifyLoop_succ, ho, attemptResult_throwErr, hcond, Bool.false_eq_true, if_false]

/-- Claim C1: given three consecutive transient (service-unavailable) failures
of the detection call, `identifyObjectsInVideo` makes exactly 3 calls (not 4),
sleeps 1000 ms between the first and second attempt and 2000 ms between the
second and third, and then throws the terminal failure message. -/
theorem retry_exhaustion_sequence (parse : String → Except String (List VideoObject))
    (outcomes : ℕ → AttemptOutcome) (m0 m1 m2 : String)
    (h0 : outcomes 0 = AttemptOutcome.throwErr m0)
    (h1 : outcomes 1 = AttemptOutcome.throwErr m1)
    (h2 : outcomes 2 = AttemptOutcome.throwErr m2)
    (t0 : isServiceUnavailable m0 = true)
    (t1 : isServiceUnavailable m1 = true)
    (t2 : isServiceUnavailable m2 = true) :
    identifyObjectsInVideo parse outcomes
      = ⟨3, [1000, 2000], IdentifyOutcome.err failedMsg⟩ := by
  have e1 := identifyLoop_transient_step parse outcomes 2 0 1000 0 [] m0 h0 t0 (by decide)
  have e2 := identifyLoop_transient_step parse outcomes 1 1 2000 1 [1000] m1 h1 t1 (by decide)
  have e3 := identifyLoop_terminal_step parse outcomes 0 2 4000 2 [2000, 1000] m2 h2
    (by rw [show decide (2 < maxRetries - 1) = false from rfl, Bool.and_false])
  calc identifyObjectsInVideo parse outcomes
      = identifyLoop parse outcomes (2 + 1) 0 1000 0 [] := rfl
    _ = identifyLoop parse outcomes (1 + 1) 1 2000 1 [1000] := e1
    _ = identifyLoop parse outcomes (0 + 1) 2 4000 2 [2000, 1000] := e2
    _ = ⟨3, [1000, 2000], IdentifyOutcome.err failedMsg⟩ := e3

theorem retry_exhaustion_sequence_witness :
    ((fun _ : ℕ => AttemptOutcome.throwErr "503") 0 = AttemptOutcome.throwErr "503") ∧
    isServiceUnavailable "503" = true ∧
    identifyObjectsInVideo (fun _ => Except.error "no parse")
        (fun _ => AttemptOutcome.throwErr "503")
      = ⟨3, [1000, 2000], IdentifyOutcome.err failedMsg⟩ :=
  ⟨rfl, by decide,
    retry_exhaustion_sequence (fun _ => Except.error "no parse")
      (fun _ => AttemptOutcome.throwErr "503") "503" "503" "503"
      rfl rfl rfl (by decide) (by decide) (by decide)⟩

theorem identifyLoop_empty_text_step (parse : String → Except String (List VideoObject))
    (outcomes : ℕ → AttemptOutcome) (fuel i delay calls : ℕ) (waits : List ℕ) (text : String)
    (ho : outcomes i = AttemptOutcome.response text) (he : jsTrim text = "") :
    identifyLoop parse outcomes (fuel + 1) i delay calls waits
      = ⟨calls + 1, waits.reverse, IdentifyOutcome.ok [] "[]"⟩ := by
  simp only [identifyLoop_succ, ho, attemptResult_response, handleResponseText, he, if_pos]

theorem identifyLoop_response_ok_step (parse : String → Except String (List VideoObject))
    (outcomes : ℕ → AttemptOutcome) (fuel i delay calls : ℕ) (waits : List ℕ)
    (text : String) (objs : List VideoObject)
    (ho : outcomes i = AttemptOutcome.response text) (hne : jsTrim text ≠ "")
    (hp : parse (jsTrim text) = Except.ok objs) :
    identifyLoop parse outcomes (fuel + 1) i delay calls waits
      = ⟨calls + 1, waits.reverse, IdentifyOutcome.ok objs (jsTrim text)⟩ := by
  simp only [identifyLoop_succ, ho, attemptResult_response, handleResponseText, hp,
    if_neg hne]

theorem identifyLoop_response_error_step (parse : String → Except String (List VideoObject))
    (outcomes : ℕ → AttemptOutcome) (fuel i delay calls : ℕ) (waits : List ℕ)
    (text m : String)
    (ho : outcomes i = AttemptOutcome.response text) (hne : jsTrim text ≠ "")
    (hp : parse (jsTrim text) = Except.error m)
    (hcond : (isServiceUnavailable m && decide (i < maxRetries - 1)) = false) :
    identifyLoop parse outcomes (fuel + 1) i delay calls waits
      = ⟨calls + 1, waits.reverse, IdentifyOutcome.err failedMsg⟩ := by
  simp only [identifyLoop_succ, ho, attemptResult_response, handleResponseText, hp,
    if_neg hne, hcond, Bool.false_eq_true, if_false]

/-- Claim C5: a non-transient failure of the detection call — a thrown error
whose message does not signal service-unavailability, including a response
body that fails to parse — is surfaced as a single terminal failure at once:
one call, no sleeps, no retry, and an error result (so no objects are
returned). -/
theorem nontransient_fails_immediately (parse : String → Except String (List VideoObject))
    (outcomes : ℕ → AttemptOutcome) (msg : String)
    (h0 : outcomes 0 = AttemptOutcome.throwErr msg)
    (hnt : isServiceUnavailable msg = false) :
    identifyObjectsInVideo parse outcomes = ⟨1, [], IdentifyOutcome.err failedMsg⟩ ∧
    ∀ (parse2 : String → Except String (List VideoObject)) (outcomes2 : ℕ → AttemptOutcome)
      (text m : String),
      outcomes2 0 = AttemptOutcome.response text →
      jsTrim text ≠ "" →
      parse2 (jsTrim text) = Except.error m →
      isServiceUnavailable m = false →
      identifyObjectsInVideo parse2 outcomes2 = ⟨1, [], IdentifyOutcome.err failedMsg⟩ := by
  constructor
  · have e := identifyLoop_terminal_step parse outcomes 2 0 1000 0 [] msg h0
      (by rw [hnt, Bool.false_and])
    calc identifyObjectsInVideo parse outcomes
        = identifyLoop parse outcomes (2 + 1) 0 1000 0 [] := rfl
      _ = ⟨1, [], IdentifyOutcome.err failedMsg⟩ := e
  · intro parse2 outcomes2 text m ho hne hp hm
    have e := identifyLoop_response_error_step parse2 outcomes2 2 0 1000 0 [] text m ho hne hp
      (by rw [hm, Bool.false_and])
    calc identifyObjectsInVideo parse2 outcomes2
        = identifyLoop parse2 outcomes2 (2 + 1) 0 1000 0 [] := rfl
      _ = ⟨1, [], IdentifyOutcome.err failedMsg⟩ := e

theorem nontransient_fails_immediately_witness :
    ((fun _ : ℕ => AttemptOutcome.throwErr "429 quota exceeded") 0
        = AttemptOutcome.throwErr "429 quota exceeded") ∧
    isServiceUnavailable "429 quota exceeded" = false ∧
    identifyObjectsInVideo (fun _ => Except.error "SyntaxError")
        (fun _ => AttemptOutcome.throwErr "429 quota exceeded")
      = ⟨1, [], IdentifyOutcome.err failedMsg⟩ ∧
    identifyObjectsInVideo (fun _ => Except.error "SyntaxError")
        (fun _ => AttemptOutcome.response "not json")
      = ⟨1, [], IdentifyOutcome.err failedMsg⟩ := by
  refine ⟨rfl, by decide, ?_, ?_⟩
  · exact (nontransient_fails_immediately (fun _ => Except.error "SyntaxError")
      (fun _ => AttemptOutcome.throwErr "429 quota exceeded") "429 quota exceeded"
      rfl (by decide)).1
  · exact (nontransient_fails_immediately (fun _ => Except.error "SyntaxError")
      (fun _ => AttemptOutcome.throwErr "429 quota exceeded") "429 quota exceeded"
      rfl (by decide)).2
      (fun _ => Except.error "SyntaxError") (fun _ => AttemptOutcome.response "not json")
      "not json" "SyntaxError" rfl (by decide) rfl (by decide)

/-- Claim C6: a model response that is blank text, or the JSON array text
`"[]"` (which `JSON.parse` turns into the empty array), yields a resolved
result with an empty object list and rawJson exactly `"[]"` — not an error. -/
theorem empty_response_empty_result (parse : String → Except String (List VideoObject))
    (outcomes : ℕ → AttemptOutcome) (text : String)
    (h0 : outcomes 0 = AttemptOutcome.response text)
    (hcase : jsTrim text = "" ∨ (jsTrim text = "[]" ∧ parse "[]" = Except.ok [])) :
    identifyObjectsInVideo parse outcomes = ⟨1, [], IdentifyOutcome.ok [] "[]"⟩ := by
  rcases hcase with he | ⟨ht, hp⟩
  · have e := identifyLoop_empty_text_step parse outcomes 2 0 1000 0 [] text h0 he
    calc identifyObjectsInVideo parse outcomes
        = identifyLoop parse outcomes (2 + 1) 0 1000 0 [] := rfl
      _ = ⟨1, [], IdentifyOutcome.ok [] "[]"⟩ := e
  · have hne : jsTrim text ≠ "" := by rw [ht]; decide
    have hp2 : parse (jsTrim text) = Except.ok [] := by rw [ht]; exact hp
    have e := identifyLoop_response_ok_step parse outcomes 2 0 1000 0 [] text [] h0 hne hp2
    rw [ht] at e
    calc identifyObjectsInVideo parse outcomes
        = identifyLoop parse outcomes (2 + 1) 0 1000 0 [] := rfl
      _ = ⟨1, [], IdentifyOutcome.ok [] "[]"⟩ := e

theorem empty_response_empty_result_witness :
    ((fun _ : ℕ => AttemptOutcome.response "   ") 0 = AttemptOutcome.response "   ") ∧
    jsTrim "   " = "" ∧
    identifyObjectsInVideo (fun _ => Except.error "SyntaxError")
        (fun _ => AttemptOutcome.response "   ")
      = ⟨1, [], IdentifyOutcome.ok [] "[]"⟩ :=
  ⟨rfl, by decide,
    empty_response_empty_result (fun _ => Except.error "SyntaxError")
      (fun _ => AttemptOutcome.response "   ") "   " rfl (Or.inl (by decide))⟩

/-- A concrete stand-in for `JSON.parse` that accepts exactly the text
`"[]"` and rejects everything else. -/
def parseEmptyOnly : String → Except String (List VideoObject) :=
  fun s => if s = "[]" then Except.ok [] else Except.error "SyntaxError: Unexpected token"

/-- Claim C9 counterexample: for the non-empty model response `" []"` (a
space followed by the empty JSON array) the code returns rawJson `"[]"` —
the trimmed text — which is not the exact response text `" []"`. So rawJson
is not "the exact JSON text returned by the detection call, retained
unmodified" for every non-empty response. -/
theorem rawJson_trimmed_counterexample :
    (identifyObjectsInVideo parseEmptyOnly (fun _ => AttemptOutcome.response " []")).result
        = IdentifyOutcome.ok [] "[]" ∧
    IdentifyOutcome.ok ([] : List VideoObject) "[]" ≠ IdentifyOutcome.ok [] " []" := by
  constructor
  · rfl
  · decide

/-- Claim C9 as amended: the rawJson value returned by
`identifyObjectsInVideo` is the model's response text with leading and
trailing whitespace trimmed — hence exactly the response text whenever the
response carries no surrounding whitespace — for every non-empty,
successfully parsed model response. -/
theorem rawJson_is_trimmed_text (parse : String → Except String (List VideoObject))
    (outcomes : ℕ → AttemptOutcome) (text : String) (objs : List VideoObject)
    (h0 : outcomes 0 = AttemptOutcome.response text)
    (hne : jsTrim text ≠ "")
    (hp : parse (jsTrim text) = Except.ok objs) :
    identifyObjectsInVideo parse outcomes = ⟨1, [], IdentifyOutcome.ok objs (jsTrim text)⟩ := by
  have e := identifyLoop_response_ok_step parse outcomes 2 0 1000 0 [] text objs h0 hne hp
  calc identifyObjectsInVideo parse outcomes
      = identifyLoop parse outcomes (2 + 1) 0 1000 0 [] := rfl
    _ = ⟨1, [], IdentifyOutcome.ok objs (jsTrim text)⟩ := e

theorem rawJson_is_trimmed_text_witness :
    ((fun _ : ℕ => AttemptOutcome.response "[]") 0 = AttemptOutcome.response "[]") ∧
    jsTrim "[]" ≠ "" ∧
    parseEmptyOnly (jsTrim "[]") = Except.ok [] ∧
    identifyObjectsInVideo parseEmptyOnly (fun _ => AttemptOutcome.response "[]")
      = ⟨1, [], IdentifyOutcome.ok [] (jsTrim "[]")⟩ :=
  ⟨rfl, by decide, rfl,
    rawJson_is_trimmed_text parseEmptyOnly (fun _ => AttemptOutcome.response "[]")
      "[]" [] rfl (by decide) rfl⟩

theorem jsMul_nan_left (b : JsNum) : jsMul JsNum.nan b = JsNum.nan := by cases b <;> rfl
theorem jsMul_nan_right (a : JsNum) : jsMul a JsNum.nan = JsNum.nan := by cases a <;> rfl
theorem jsMax_nan_right (a : JsNum) : jsMax a JsNum.nan = JsNum.nan := by cases a <;> rfl
theorem jsMin_nan_right (a : JsNum) : jsMin a JsNum.nan = JsNum.nan := by cases a <;> rfl
theorem jsSub_nan_left (b : JsNum) : jsSub JsNum.nan b = JsNum.nan := by cases b <;> rfl
theorem jsSub_nan_right (a : JsNum) : jsSub a JsNum.nan = JsNum.nan := by cases a <;> rfl
theorem jsGt_nan_left (b : JsNum) : jsGt JsNum.nan b = false := by cases b <;> rfl

/-- App source line 101: `const x1 = Math.max(0, box.x_min * img.width)`. -/
def clampedX1 (w : ℕ) (box : BoundingBox) : JsNum :=
  jsMax (JsNum.num 0) (jsMul box.x_min (JsNum.num w))

/-- App source line 102: `const y1 = Math.max(0, box.y_min * img.height)`. -/
def clampedY1 (h : ℕ) (box : BoundingBox) : JsNum :=
  jsMax (JsNum.num 0) (jsMul box.y_min (JsNum.num h))

/-- App source line 103: `const x2 = Math.min(img.width, box.x_max * img.width)`. -/
def clampedX2 (w : ℕ) (box : BoundingBox) : JsNum :=
  jsMin (JsNum.num w) (jsMul box.x_max (JsNum.num w))

/-- App source line 104: `const y2 = Math.min(img.height, box.y_max * img.height)`. -/
def clampedY2 (h : ℕ) (box : BoundingBox) : JsNum :=
  jsMin (JsNum.num h) (jsMul box.y_max (JsNum.num h))

/-- JS `Math.round` on a nonnegative rational: floor of q + 1/2. -/
def jsRound (q : ℚ) : ℤ := Rat.floor (q + 1/2)

/-- App source line 98: `Math.max(2, Math.round(Math.min(img.width, img.height) / 250))`. -/
def lineWidthFor (w h : ℕ) : ℕ :=
  max 2 (jsRound (((min w h : ℕ) : ℚ) / 250)).toNat

/-- The observable output of `drawBoundingBoxOnImage`: the canvas holds the
drawn input image (`base`), plus — only when a rectangle was drawn — the
`strokeRect(x1, y1, width, height)` arguments. `rect = none` means the
returned raster is exactly the input frame. -/
structure AnnotateResult where
  base : String
  lineWidth : ℕ
  rect : Option (JsNum × JsNum × JsNum × JsNum)
deriving DecidableEq

/-- App source lines 84-124: `drawBoundingBoxOnImage` once the image has
loaded. The promise rejects only on environment failures (no canvas context,
image load error), never because of the box. -/
def drawBoundingBoxOnImage (imageUrl : String) (w h : ℕ) (box : BoundingBox) : AnnotateResult :=
  let x1 := clampedX1 w box
  let y1 := clampedY1 h box
  let x2 := clampedX2 w box
  let y2 := clampedY2 h box
  let width := jsSub x2 x1
  let height := jsSub y2 y1
  if jsGt width (JsNum.num 0) && jsGt height (JsNum.num 0) then
    ⟨imageUrl, lineWidthFor w h, some (x1, y1, width, height)⟩
  else
    ⟨imageUrl, lineWidthFor w h, none⟩

theorem draw_cond_false (imageUrl : String) (w h : ℕ) (box : BoundingBox)
    (hc : (jsGt (jsSub (clampedX2 w box) (clampedX1 w box)) (JsNum.num 0) &&
           jsGt (jsSub (clampedY2 h box) (clampedY1 h box)) (JsNum.num 0)) = false) :
    drawBoundingBoxOnImage imageUrl w h box = ⟨imageUrl, lineWidthFor w h, none⟩ := by
  simp only [drawBoundingBoxOnImage, hc, Bool.false_eq_true, if_false]

theorem jsGt_sub_zero_false (a b : ℚ) (h : a ≤ b) :
    jsGt (jsSub (JsNum.num a) (JsNum.num b)) (JsNum.num 0) = false := by
  simp only [jsSub_num, jsGt_num]
  exact decide_eq_false (not_lt.mpr (sub_nonpos.mpr h))

/-- Claim C2: a bounding box with `x_min ≥ x_max` or `y_min ≥ y_max` makes
the clamped width or height nonpositive, so `drawBoundingBoxOnImage` skips
`strokeRect` and resolves with the raster content of the input frame
unchanged (no rectangle drawn, no rejection). -/
theorem degenerate_box_skips_drawing (url : String) (w h : ℕ) (xm ym xM yM : ℚ)
    (hdeg : xm ≥ xM ∨ ym ≥ yM) :
    drawBoundingBoxOnImage url w h ⟨JsNum.num xm, JsNum.num ym, JsNum.num xM, JsNum.num yM⟩
      = ⟨url, lineWidthFor w h, none⟩ := by
  apply draw_cond_false
  rcases hdeg with hx | hy
  · have hw : (0:ℚ) ≤ (w:ℚ) := Nat.cast_nonneg w
    have h1 : min (w:ℚ) (xM * w) ≤ max 0 (xm * w) :=
      le_trans (min_le_right _ _)
        (le_trans (mul_le_mul_of_nonneg_right hx hw) (le_max_right _ _))
    simp only [clampedX1, clampedX2, jsMul_num, jsMax_num, jsMin_num]
    rw [jsGt_sub_zero_false _ _ h1, Bool.false_and]
  · have hh : (0:ℚ) ≤ (h:ℚ) := Nat.cast_nonneg h
    have h1 : min (h:ℚ) (yM * h) ≤ max 0 (ym * h) :=
      le_trans (min_le_right _ _)
        (le_trans (mul_le_mul_of_nonneg_right hy hh) (le_max_right _ _))
    simp only [clampedY1, clampedY2, jsMul_num, jsMax_num, jsMin_num]
    rw [jsGt_sub_zero_false _ _ h1, Bool.and_false]

theorem degenerate_box_skips_drawing_witness :
    ((1:ℚ) ≥ 0 ∨ (0:ℚ) ≥ 1) ∧
    drawBoundingBoxOnImage "u" 2 2 ⟨JsNum.num 1, JsNum.num 0, JsNum.num 0, JsNum.num 1⟩
      = ⟨"u", lineWidthFor 2 2, none⟩ :=
  ⟨Or.inl (by decide),
    degenerate_box_skips_drawing "u" 2 2 1 0 0 1 (Or.inl (by decide))⟩

/-- Claim C7: the annotator converts normalized box coordinates to pixel
space by `x1 = max(0, x_min·width)`, `y1 = max(0, y_min·height)`,
`x2 = min(width, x_max·width)`, `y2 = min(height, y_max·height)`; for the
box (0.25, 0.4, 0.45, 0.6) on a 400×400 image the drawn rectangle is
`strokeRect(100, 160, 80, 80)`, i.e. pixel bounds (100,160)-(100+80,160+80)
= (100,160)-(180,240). -/
theorem annotate_pixel_coords :
    (∀ (w h : ℕ) (xm ym xM yM : ℚ),
      clampedX1 w ⟨JsNum.num xm, JsNum.num ym, JsNum.num xM, JsNum.num yM⟩
          = JsNum.num (max 0 (xm * w)) ∧
      clampedY1 h ⟨JsNum.num xm, JsNum.num ym, JsNum.num xM, JsNum.num yM⟩
          = JsNum.num (max 0 (ym * h)) ∧
      clampedX2 w ⟨JsNum.num xm, JsNum.num ym, JsNum.num xM, JsNum.num yM⟩
          = JsNum.num (min (w:ℚ) (xM * w)) ∧
      clampedY2 h ⟨JsNum.num xm, JsNum.num ym, JsNum.num xM, JsNum.num yM⟩
          = JsNum.num (min (h:ℚ) (yM * h))) ∧
    (drawBoundingBoxOnImage "img" 400 400
        ⟨JsNum.num (1/4), JsNum.num (2/5), JsNum.num (9/20), JsNum.num (3/5)⟩).rect
      = some (JsNum.num 100, JsNum.num 160, JsNum.num 80, JsNum.num 80) ∧
    (100 : ℚ) + 80 = 180 ∧ (160 : ℚ) + 80 = 240 := by
  refine ⟨fun w h xm ym xM yM => ⟨rfl, rfl, rfl, rfl⟩, ?_, by norm_num, by norm_num⟩
  have hx1 : clampedX1 400 ⟨JsNum.num (1/4), JsNum.num (2/5), JsNum.num (9/20), JsNum.num (3/5)⟩
      = JsNum.num 100 := by
    simp only [clampedX1, jsMul_num, jsMax_num]
    norm_num
  have hy1 : clampedY1 400 ⟨JsNum.num (1/4), JsNum.num (2/5), JsNum.num (9/20), JsNum.num (3/5)⟩
      = JsNum.num 160 := by
    simp only [clampedY1, jsMul_num, jsMax_num]
    norm_num
  have hx2 : clampedX2 400 ⟨JsNum.num (1/4), JsNum.num (2/5), JsNum.num (9/20), JsNum.num (3/5)⟩
      = JsNum.num 180 := by
    simp only [clampedX2, jsMul_num, jsMin_num]
    norm_num
  have hy2 : clampedY2 400 ⟨JsNum.num (1/4), JsNum.num (2/5), JsNum.num (9/20), JsNum.num (3/5)⟩
      = JsNum.num 240 := by
    simp only [clampedY2, jsMul_num, jsMin_num]
    norm_num
  simp only [drawBoundingBoxOnImage, hx1, hy1, hx2, hy2, jsSub_num, jsGt_num]
  norm_num

/-- Claim C10: `drawBoundingBoxOnImage` is total in its box argument: for any
box (negative, out-of-range or NaN coordinates) it resolves with the frame —
the canvas always holds the input image — and whenever the clamped pixel
width or height is not strictly positive the rectangle is skipped; in
particular a NaN coordinate skips drawing, and so does a correctly ordered
box lying entirely outside [0,1] in either axis. -/
theorem annotate_total_on_box (url : String) (w h : ℕ) (box : BoundingBox) :
    (drawBoundingBoxOnImage url w h box).base = url ∧
    ((jsGt (jsSub (clampedX2 w box) (clampedX1 w box)) (JsNum.num 0) &&
      jsGt (jsSub (clampedY2 h box) (clampedY1 h box)) (JsNum.num 0)) = false →
        drawBoundingBoxOnImage url w h box = ⟨url, lineWidthFor w h, none⟩) ∧
    ((box.x_min = JsNum.nan ∨ box.y_min = JsNum.nan ∨
      box.x_max = JsNum.nan ∨ box.y_max = JsNum.nan) →
        (drawBoundingBoxOnImage url w h box).rect = none) ∧
    (∀ xm ym xM yM : ℚ,
      box = ⟨JsNum.num xm, JsNum.num ym, JsNum.num xM, JsNum.num yM⟩ →
      (1 ≤ xm ∨ xM ≤ 0 ∨ 1 ≤ ym ∨ yM ≤ 0) →
        (drawBoundingBoxOnImage url w h box).rect = none) := by
  refine ⟨?_, ?_, ?_, ?_⟩
  · simp only [drawBoundingBoxOnImage]
    split <;> rfl
  · intro hc
    exact draw_cond_false url w h box hc
  · intro hnan
    have hc : (jsGt (jsSub (clampedX2 w box) (clampedX1 w box)) (JsNum.num 0) &&
        jsGt (jsSub (clampedY2 h box) (clampedY1 h box)) (JsNum.num 0)) = false := by
      rcases hnan with hx | hy | hx | hy
      · rw [clampedX1, hx, jsMul_nan_left, jsMax_nan_right, jsSub_nan_right,
          jsGt_nan_left, Bool.false_and]
      · rw [clampedY1, hy, jsMul_nan_left, jsMax_nan_right, jsSub_nan_right,
          jsGt_nan_left, Bool.and_false]
      · rw [clampedX2, hx, jsMul_nan_left, jsMin_nan_right, jsSub_nan_left,
          jsGt_nan_left, Bool.false_and]
      · rw [clampedY2, hy, jsMul_nan_left, jsMin_nan_right, jsSub_nan_left,
          jsGt_nan_left, Bool.and_false]
    rw [draw_cond_false url w h box hc]
  · intro xm ym xM yM hbox hout
    have hw : (0:ℚ) ≤ (w:ℚ) := Nat.cast_nonneg w
    have hh : (0:ℚ) ≤ (h:ℚ) := Nat.cast_nonneg h
    have hc : (jsGt (jsSub (clampedX2 w box) (clampedX1 w box)) (JsNum.num 0) &&
        jsGt (jsSub (clampedY2 h box) (clampedY1 h box)) (JsNum.num 0)) = false := by
      subst hbox
      rcases hout with hx | hx | hy | hy
      · have h1 : min (w:ℚ) (xM * w) ≤ max 0 (xm * w) := by
          have : (w:ℚ) ≤ xm * w := by
            calc (w:ℚ) = 1 * w := (one_mul _).symm
              _ ≤ xm * w := mul_le_mul_of_nonneg_right hx hw
          exact le_trans (min_le_left _ _) (le_trans this (le_max_right _ _))
        simp only [clampedX1, clampedX2, jsMul_num, jsMax_num, jsMin_num]
        rw [jsGt_sub_zero_false _ _ h1, Bool.false_and]
      · have h1 : min (w:ℚ) (xM * w) ≤ max 0 (xm * w) := by
          have : xM * w ≤ 0 := mul_nonpos_of_nonpos_of_nonneg hx hw
          exact le_trans (min_le_right _ _) (le_trans this (le_max_left _ _))
        simp only [clampedX1, clampedX2, jsMul_num, jsMax_num, jsMin_num]
        rw [jsGt_sub_zero_false _ _ h1, Bool.false_and]
      · have h1 : min (h:ℚ) (yM * h) ≤ max 0 (ym * h) := by
          have : (h:ℚ) ≤ ym * h := by
            calc (h:ℚ) = 1 * h := (one_mul _).symm
              _ ≤ ym * h := mul_le_mul_of_nonneg_right hy hh
          exact le_trans (min_le_left _ _) (le_trans this (le_max_right _ _))
        simp only [clampedY1, clampedY2, jsMul_num, jsMax_num, jsMin_num]
        rw [jsGt_sub_zero_false _ _ h1, Bool.and_false]
      · have h1 : min (h:ℚ) (yM * h) ≤ max 0 (ym * h) := by
          have : yM * h ≤ 0 := mul_nonpos_of_nonpos_of_nonneg hy hh
          exact le_trans (min_le_right _ _) (le_trans this (le_max_left _ _))
        simp only [clampedY1, clampedY2, jsMul_num, jsMax_num, jsMin_num]
        rw [jsGt_sub_zero_false _ _ h1, Bool.and_false]
    rw [draw_cond_false url w h box hc]

theorem annotate_total_on_box_witness :
    (drawBoundingBoxOnImage "u" 400 300 ⟨JsNum.num 2, JsNum.num 0, JsNum.num 3, JsNum.num 1⟩).base
        = "u" ∧
    (drawBoundingBoxOnImage "u" 400 300 ⟨JsNum.num 2, JsNum.num 0, JsNum.num 3, JsNum.num 1⟩).rect
        = none ∧
    (drawBoundingBoxOnImage "u" 400 300 ⟨JsNum.nan, JsNum.num 0, JsNum.num 1, JsNum.num 1⟩).rect
        = none :=
  ⟨(annotate_total_on_box "u" 400 300 ⟨JsNum.num 2, JsNum.num 0, JsNum.num 3, JsNum.num 1⟩).1,
    (annotate_total_on_box "u" 400 300 ⟨JsNum.num 2, JsNum.num 0, JsNum.num 3, JsNum.num 1⟩).2.2.2
      2 0 3 1 rfl (Or.inl (by decide)),
    (annotate_total_on_box "u" 400 300 ⟨JsNum.nan, JsNum.num 0, JsNum.num 1, JsNum.num 1⟩).2.2.1
      (Or.inl rfl)⟩

/-- Video metadata available once the `loadedmetadata` event has fired. -/
structure VideoMeta where
  duration : ℚ
deriving DecidableEq

/-- How loading the uploaded video behaves: metadata arrives and seeking
works (a valid, decodable video), or the error event fires with a message. -/
inductive VideoLoad
  | meta (m : VideoMeta)
  | loadError (msg : String)

/-- App source line 57:
`video.currentTime = Math.min(Math.max(0, timeInSeconds), video.duration)`. -/
def clampSeekTime (timeInSeconds duration : ℚ) : ℚ :=
  min (max 0 timeInSeconds) duration

/-- Result of `extractFrameFromVideo`: the promise resolves with the frame
captured at the seek position (as a JPEG data URL), or rejects with the
video error message. -/
inductive ExtractResult
  | frameAt (seekTime : ℚ)
  | videoError (msg : String)
deriving DecidableEq

/-- App source lines 28-75: for a decodable video the `loadedmetadata` and
`seeked` events fire and the promise resolves with the frame at the clamped
seek time; a video error rejects. -/
def extractFrameFromVideo (v : VideoLoad) (timeInSeconds : ℚ) : ExtractResult :=
  match v with
  | VideoLoad.meta m => ExtractResult.frameAt (clampSeekTime timeInSeconds m.duration)
  | VideoLoad.loadError msg => ExtractResult.videoError msg

/-- Claim C4: for a valid video (metadata loads, duration ≥ 0),
`extractFrameFromVideo` clamps the timestamp into [0, duration] before
seeking and resolves (never rejects) for every timestamp: the seek position
is always within bounds, a negative timestamp seeks to 0, and a timestamp
beyond the duration seeks to the duration. -/
theorem extractFrame_clamps (m : VideoMeta) (t : ℚ) (hd : 0 ≤ m.duration) :
    (∃ s, extractFrameFromVideo (VideoLoad.meta m) t = ExtractResult.frameAt s ∧
      0 ≤ s ∧ s ≤ m.duration) ∧
    (t < 0 → extractFrameFromVideo (VideoLoad.meta m) t = ExtractResult.frameAt 0) ∧
    (m.duration < t → extractFrameFromVideo (VideoLoad.meta m) t
        = ExtractResult.frameAt m.duration) := by
  refine ⟨⟨clampSeekTime t m.duration, rfl, ?_, ?_⟩, ?_, ?_⟩
  · exact le_min (le_max_left 0 t) hd
  · exact min_le_right _ _
  · intro ht
    show ExtractResult.frameAt (clampSeekTime t m.duration) = _
    rw [clampSeekTime, max_eq_left ht.le, min_eq_left hd]
  · intro ht
    show ExtractResult.frameAt (clampSeekTime t m.duration) = _
    rw [clampSeekTime, min_eq_right (le_trans ht.le (le_max_right 0 t))]

theorem extractFrame_clamps_witness :
    (0:ℚ) ≤ (VideoMeta.mk 10).duration ∧
    extractFrameFromVideo (VideoLoad.meta (VideoMeta.mk 10)) (-3) = ExtractResult.frameAt 0 ∧
    extractFrameFromVideo (VideoLoad.meta (VideoMeta.mk 10)) 99 = ExtractResult.frameAt 10 :=
  ⟨by decide,
    (extractFrame_clamps (VideoMeta.mk 10) (-3) (by decide)).2.1 (by decide),
    (extractFrame_clamps (VideoMeta.mk 10) 99 (by decide)).2.2 (by decide)⟩

/-- App source lines 8-13: interface IdentifiedObject (one display slot). -/
structure IdentifiedObject where
  name : String
  imageUrl : Option String
  price : String
  timestamp : ℚ
deriving DecidableEq

/-- App source lines 187-192: the initial display record for a detected
object — `{ name, imageUrl: null, price, timestamp }`. -/
def toDisplay (o : VideoObject) : IdentifiedObject :=
  ⟨o.name, none, o.price, o.timestamp⟩

/-- App source lines 200-206: the state updater run when a frame job
finishes — copy the list and, if the slot at `index` exists and its name
matches the job's object name, fill in its image; otherwise leave the list
unchanged. -/
def applyFrameUpdate (prev : List IdentifiedObject) (index : ℕ)
    (objName frameWithBox : String) : List IdentifiedObject :=
  match prev[index]? with
  | some cur =>
    if cur.name = objName then prev.set index { cur with imageUrl := some frameWithBox }
    else prev
  | none => prev

/-- The state-changing events of `handleIdentifyClick` that touch the
`identifiedObjects` list: a detection run returning its object list
(which replaces the list wholesale), and a frame job — launched by the run
whose list was `runObjs`, for slot `index` — completing with an annotated
frame. A frame job that fails produces no event (its catch only logs). -/
inductive AppEvent
  | detectionReturned (objs : List VideoObject)
  | frameJobDone (runObjs : List VideoObject) (index : ℕ) (frameWithBox : String)

/-- One event applied to the current `identifiedObjects` state
(App source lines 183-210). -/
def stepEvent (s : List IdentifiedObject) : AppEvent → List IdentifiedObject
  | AppEvent.detectionReturned objs => if objs.isEmpty then [] else objs.map toDisplay
  | AppEvent.frameJobDone runObjs index frame =>
    match runObjs[index]? with
    | some obj => applyFrameUpdate s index obj.name frame
    | none => s

/-- A sequence of events applied in order. -/
def runEvents (s : List IdentifiedObject) (es : List AppEvent) : List IdentifiedObject :=
  es.foldl stepEvent s

def bboxFull : BoundingBox := ⟨JsNum.num 0, JsNum.num 0, JsNum.num 1, JsNum.num 1⟩

def chairRun1 : VideoObject := ⟨"chair", "from the first run", 1, bboxFull, "$10"⟩

def chairRun2 : VideoObject := ⟨"chair", "from the second run", 7, bboxFull, "$20"⟩

/-- Claim C3 counterexample: the stale-update guard checks only index and
name. Run 1 detects a "chair" at slot 0; run 2 replaces the list and also
has a "chair" at slot 0; then run 1's late frame job passes the guard and
writes its stale image into run 2's slot — the second run's slot does not
stay image-less. So it is not the case that every stale update whose result
list has been replaced is dropped. -/
theorem stale_guard_overwrite_counterexample :
    runEvents []
        [AppEvent.detectionReturned [chairRun1],
         AppEvent.detectionReturned [chairRun2],
         AppEvent.frameJobDone [chairRun1] 0 "stale-frame-from-run-1"]
      = [⟨"chair", some "stale-frame-from-run-1", "$20", 7⟩] ∧
    (⟨"chair", some "stale-frame-from-run-1", "$20", 7⟩ : IdentifiedObject)
      ≠ ⟨"chair", none, "$20", 7⟩ := by
  constructor
  · decide
  · decide

theorem stepEvent_frameJobDone (s : List IdentifiedObject) (runObjs : List VideoObject)
    (index : ℕ) (frame : String) :
    stepEvent s (AppEvent.frameJobDone runObjs index frame) =
      match runObjs[index]? with
      | some obj => applyFrameUpdate s index obj.name frame
      | none => s := rfl

/-- Claim C3 as amended: the guard drops a stale frame update whenever the
current list has no slot at the job's index or the name at that index
differs from the job's object name; a stale update whose index is in range
and whose name matches the replaced list's slot at that index is still
applied. -/
theorem stale_guard_drops_mismatched (s : List IdentifiedObject)
    (runObjs : List VideoObject) (index : ℕ) (frame : String)
    (h : ∀ obj cur, runObjs[index]? = some obj → s[index]? = some cur →
      cur.name ≠ obj.name) :
    stepEvent s (AppEvent.frameJobDone runObjs index frame) = s := by
  rw [stepEvent_frameJobDone]
  cases hro : runObjs[index]? with
  | none => rfl
  | some obj =>
    show applyFrameUpdate s index obj.name frame = s
    unfold applyFrameUpdate
    cases hs : s[index]? with
    | none => rfl
    | some cur =>
      simp only [if_neg (h obj cur hro hs)]

theorem stale_guard_drops_mismatched_witness :
    (∀ obj cur, ([chairRun1] : List VideoObject)[0]? = some obj →
        ([⟨"sofa", none, "$5", 2⟩] : List IdentifiedObject)[0]? = some cur →
        cur.name ≠ obj.name) ∧
    stepEvent [⟨"sofa", none, "$5", 2⟩] (AppEvent.frameJobDone [chairRun1] 0 "f")
      = [⟨"sofa", none, "$5", 2⟩] := by
  have hguard : ∀ obj cur, ([chairRun1] : List VideoObject)[0]? = some obj →
      ([(⟨"sofa", none, "$5", 2⟩ : IdentifiedObject)] : List IdentifiedObject)[0]? = some cur →
      cur.name ≠ obj.name := by
    intro obj cur h1 h2
    cases Option.some.inj h1
    cases Option.some.inj h2
    decide
  exact ⟨hguard, stale_guard_drops_mismatched _ _ _ _ hguard⟩

theorem applyFrameUpdate_length (s : List IdentifiedObject) (index : ℕ)
    (objName frame : String) :
    (applyFrameUpdate s index objName frame).length = s.length := by
  unfold applyFrameUpdate
  cases hs : s[index]? with
  | none => rfl
  | some cur =>
    by_cases hn : cur.name = objName
    · simp only [if_pos hn, List.length_set]
    · simp only [if_neg hn]

theorem applyFrameUpdate_getElem_ne (s : List IdentifiedObject) (index : ℕ)
    (objName frame : String) (j : ℕ) (hj : j ≠ index) :
    (applyFrameUpdate s index objName frame)[j]? = s[j]? := by
  unfold applyFrameUpdate
  cases hs : s[index]? with
  | none => rfl
  | some cur =>
    by_cases hn : cur.name = objName
    · simp only [if_pos hn]
      exact List.getElem?_set_ne (Ne.symm hj)
    · simp only [if_neg hn]

theorem applyFrameUpdate_getElem_self (s : List IdentifiedObject) (index : ℕ)
    (objName frame : String) :
    (applyFrameUpdate s index objName frame)[index]? =
      match s[index]? with
      | some cur => some (if cur.name = objName then { cur with imageUrl := some frame } else cur)
      | none => none := by
  unfold applyFrameUpdate
  cases hs : s[index]? with
  | none => simp only [hs]
  | some cur =>
    simp only [hs]
    by_cases hn : cur.name = objName
    · simp only [if_pos hn]
      exact List.getElem?_set_self (List.getElem?_eq_some.mp hs).1
    · simp only [if_neg hn]
      exact hs

theorem stepEvent_frame_length (s : List IdentifiedObject) (runObjs : List VideoObject)
    (index : ℕ) (frame : String) :
    (stepEvent s (AppEvent.frameJobDone runObjs index frame)).length = s.length := by
  rw [stepEvent_frameJobDone]
  cases runObjs[index]? with
  | none => rfl
  | some obj => exact applyFrameUpdate_length s index obj.name frame

theorem stepEvent_frame_getElem_ne (s : List IdentifiedObject) (runObjs : List VideoObject)
    (index : ℕ) (frame : String) (j : ℕ) (hj : j ≠ index) :
    (stepEvent s (AppEvent.frameJobDone runObjs index frame))[j]? = s[j]? := by
  rw [stepEvent_frameJobDone]
  cases runObjs[index]? with
  | none => rfl
  | some obj => exact applyFrameUpdate_getElem_ne s index obj.name frame j hj

theorem stepEvent_frame_getElem_congr (s₁ s₂ : List IdentifiedObject)
    (runObjs : List VideoObject) (index : ℕ) (frame : String)
    (hag : s₁[index]? = s₂[index]?) :
    (stepEvent s₁ (AppEvent.frameJobDone runObjs index frame))[index]?
      = (stepEvent s₂ (AppEvent.frameJobDone runObjs index frame))[index]? := by
  rw [stepEvent_frameJobDone, stepEvent_frameJobDone]
  cases runObjs[index]? with
  | none => exact hag
  | some obj =>
    show (applyFrameUpdate s₁ index obj.name frame)[index]?
        = (applyFrameUpdate s₂ index obj.name frame)[index]?
    rw [applyFrameUpdate_getElem_self, applyFrameUpdate_getElem_self, hag]

/-- The per-object frame jobs of one run, as a fold of completion events.
`done` lists the completions that happened (index, annotated frame), in any
order; a job whose pipeline failed is simply absent. -/
def runBatch (objs : List VideoObject) (done : List (ℕ × String)) : List IdentifiedObject :=
  runEvents []
    (AppEvent.detectionReturned objs ::
      done.map (fun p => AppEvent.frameJobDone objs p.1 p.2))

theorem foldl_frame_length (objs : List VideoObject) (done : List (ℕ × String)) :
    ∀ s : List IdentifiedObject,
      (done.foldl (fun s p => stepEvent s (AppEvent.frameJobDone objs p.1 p.2)) s).length
        = s.length := by
  induction done with
  | nil => intro s; rfl
  | cons p rest ih =>
    intro s
    rw [List.foldl_cons, ih, stepEvent_frame_length]

theorem foldl_frame_untouched (objs : List VideoObject) (j : ℕ) :
    ∀ done : List (ℕ × String), (∀ p ∈ done, p.1 ≠ j) →
      ∀ s : List IdentifiedObject,
        (done.foldl (fun s p => stepEvent s (AppEvent.frameJobDone objs p.1 p.2)) s)[j]?
          = s[j]? := by
  intro done
  induction done with
  | nil => intro _ s; rfl
  | cons p rest ih =>
    intro hj s
    rw [List.foldl_cons, ih (fun q hq => hj q (List.mem_cons_of_mem p hq)),
      stepEvent_frame_getElem_ne]
    exact fun hcontra => hj p (List.mem_cons_self p rest) hcontra.symm

theorem foldl_frame_agree (objs : List VideoObject) (j : ℕ) :
    ∀ done : List (ℕ × String), ∀ s₁ s₂ : List IdentifiedObject, s₁[j]? = s₂[j]? →
      (done.foldl (fun s p => stepEvent s (AppEvent.frameJobDone objs p.1 p.2)) s₁)[j]?
        = ((done.filter (fun p => p.1 == j)).foldl
            (fun s p => stepEvent s (AppEvent.frameJobDone objs p.1 p.2)) s₂)[j]? := by
  intro done
  induction done with
  | nil => intro s₁ s₂ hag; exact hag
  | cons p rest ih =>
    intro s₁ s₂ hag
    by_cases hp : p.1 = j
    · have hfil : (p :: rest).filter (fun p => p.1 == j)
          = p :: rest.filter (fun p => p.1 == j) := by
        simp [List.filter_cons, hp]
      rw [hfil, List.foldl_cons, List.foldl_cons]
      apply ih
      subst hp
      exact stepEvent_frame_getElem_congr s₁ s₂ objs p.1 p.2 hag
    · have hfil : (p :: rest).filter (fun p => p.1 == j)
          = rest.filter (fun p => p.1 == j) := by
        simp [List.filter_cons, hp]
      rw [hfil, List.foldl_cons]
      apply ih
      rw [stepEvent_frame_getElem_ne]
      · exact hag
      · exact fun hcontra => hp hcontra.symm

/-- Claim C8: a frame-extraction/annotation failure for one detected object
is isolated to that object. A failed pipeline produces no completion event
(its catch block only logs), so with `done` the set of successful
completions: the card list keeps one slot per detected object regardless of
failures; slot `j`'s final value depends only on `j`'s own completions
(sibling completions or failures cannot change it); and a slot with no
completion keeps `imageUrl = none` while siblings are unaffected. -/
theorem frame_failure_isolated (objs : List VideoObject) (done : List (ℕ × String)) (j : ℕ)
    (hne : objs ≠ []) :
    (runBatch objs done).length = objs.length ∧
    (runBatch objs done)[j]? = (runBatch objs (done.filter (fun p => p.1 == j)))[j]? ∧
    ((∀ p ∈ done, p.1 ≠ j) → ∀ obj, objs[j]? = some obj →
      (runBatch objs done)[j]? = some (toDisplay obj)) := by
  have hinit : stepEvent [] (AppEvent.detectionReturned objs) = objs.map toDisplay := by
    show (if objs.isEmpty then [] else objs.map toDisplay) = objs.map toDisplay
    rw [if_neg]
    simp [List.isEmpty_iff, hne]
  have hbatch : ∀ d : List (ℕ × String), runBatch objs d
      = d.foldl (fun s p => stepEvent s (AppEvent.frameJobDone objs p.1 p.2))
          (objs.map toDisplay) := by
    intro d
    show List.foldl stepEvent []
        (AppEvent.detectionReturned objs :: d.map (fun p => AppEvent.frameJobDone objs p.1 p.2))
      = _
    rw [List.foldl_cons, hinit, List.foldl_map]
  refine ⟨?_, ?_, ?_⟩
  · rw [hbatch, foldl_frame_length, List.length_map]
  · rw [hbatch, hbatch]
    exact foldl_frame_agree objs j done (objs.map toDisplay) (objs.map toDisplay) rfl
  · intro hdone obj hobj
    rw [hbatch, foldl_frame_untouched objs j done hdone, List.getElem?_map, hobj]
    rfl

def sofaRun : VideoObject := ⟨"sofa", "a sofa", 3, bboxFull, "$150"⟩

theorem frame_failure_isolated_witness :
    ([chairRun1, sofaRun] : List VideoObject) ≠ [] ∧
    (∀ p ∈ ([(0, "f0")] : List (ℕ × String)), p.1 ≠ 1) ∧
    ([chairRun1, sofaRun] : List VideoObject)[1]? = some sofaRun ∧
    (runBatch [chairRun1, sofaRun] [(0, "f0")])[1]? = some (toDisplay sofaRun) :=
  ⟨by decide, by decide, rfl,
    (frame_failure_isolated [chairRun1, sofaRun] [(0, "f0")] 1 (by decide)).2.2
      (by decide) sofaRun rfl⟩
